import Mathlib

/-!
Verification of the `ExampleList` component
(`src/app/frontend/src/components/Example/ExampleList.tsx`).

The component owns a fixed module-level collection `EXAMPLES` of
`ExampleModel` records and renders it as a `<ul>` of `<li>` items, each
holding an `Example` child that shows `text` and reports clicks through
the caller-supplied `onExampleClicked` callback.

The embedding is shallow: rendering is a pure function from the record
collection and the callback to the list of rendered items, and a user
click on an item is the finite trace of callback invocations (argument
paired with the callback's result) that the click performs.
-/

/-- The record type of `ExampleList.tsx`: `text` is the display label and
`value` the payload handed to the click callback. -/
structure ExampleModel where
  text : String
  value : String
deriving DecidableEq, Repr

/-- The hardcoded module-level collection `EXAMPLES` of `ExampleList.tsx`,
transcribed verbatim (apostrophes written as the escape `\x27`). -/
def EXAMPLES : List ExampleModel :=
  [ { text := "Can you share any success stories or case studies of your digital transformation solutions in action? How did your company help a client achieve their goals through innovative technological advancements?",
      value := "Can you share any success stories or case studies of your digital transformation solutions in action? How did your company help a client achieve their goals through innovative technological advancements?" },
    { text := "Do you have any references or testimonials from previous clients who have undergone digital transformation with your company? What were their specific challenges, and how did your solutions address and overcome those obstacles?",
      value := "Do you have any references or testimonials from previous clients who have undergone digital transformation with your company? What were their specific challenges, and how did your solutions address and overcome those obstacles?" },
    { text := "I\x27m interested in learning about real-world examples of how your digital transformation services have made a significant impact on businesses. Could you provide a specific case study where your company\x27s expertise revolutionized a client\x27s operations, leading to increased efficiency, cost savings, or improved customer experience?",
      value := "I\x27m interested in learning about real-world examples of how your digital transformation services have made a significant impact on businesses. Could you provide a specific case study where your company\x27s expertise revolutionized a client\x27s operations, leading to increased efficiency, cost savings, or improved customer experience?" } ]

/-- One rendered `<li>` item: the `key` attribute (the map index), the
`text` and `value` props passed to the `Example` child, and the `onClick`
prop it receives. `α` is the return type of the callback. -/
structure RenderedItem (α : Type) where
  key : Nat
  text : String
  value : String
  onClick : String → α

/-- Modelled from the spec: the `Example` child component (imported from
`./Example`, whose source is not under `src/`) shows its `text` prop as the
visible label and, when the user activates (clicks) the item, invokes its
`onClick` prop exactly once, synchronously, with its `value` prop. A click
is embedded as the finite trace of callback invocations it performs, each
invocation recorded as the pair of the argument passed and the result the
callback returns. -/
def RenderedItem.click {α : Type} (it : RenderedItem α) : List (String × α) :=
  [(it.value, it.onClick it.value)]

/-- The arguments a click on the item passes to the callback, in order. -/
def RenderedItem.clickArgs {α : Type} (it : RenderedItem α) : List String :=
  it.click.map Prod.fst

/-- The body of `EXAMPLES.map((x, i) => <li key={i}><Example text={x.text}
value={x.value} onClick={onExampleClicked} /></li>)`: the map over the
collection carrying the running index `i`. -/
def renderFrom {α : Type} (onExampleClicked : String → α) :
    Nat → List ExampleModel → List (RenderedItem α)
  | _, [] => []
  | i, x :: xs =>
      ⟨i, x.text, x.value, onExampleClicked⟩ :: renderFrom onExampleClicked (i + 1) xs

/-- Rendering a record collection with a callback: the ordered list of
`<li>` items the component body produces. -/
def renderList {α : Type} (examples : List ExampleModel)
    (onExampleClicked : String → α) : List (RenderedItem α) :=
  renderFrom onExampleClicked 0 examples

/-- The `ExampleList` component itself: it always renders the module-level
`EXAMPLES` collection with the supplied `onExampleClicked` prop. -/
def ExampleList {α : Type} (onExampleClicked : String → α) :
    List (RenderedItem α) :=
  renderList EXAMPLES onExampleClicked

/-- A sequence of discrete user activations on a rendered list: each
activation picks one rendered item (by a valid index) and clicks it. The
result is the full callback-invocation trace, in the order the user
performs the activations. -/
def performActivations {α : Type} (items : List (RenderedItem α)) :
    List (Fin items.length) → List (String × α)
  | [] => []
  | a :: as => (items.get a).click ++ performActivations items as

/-- The runtime operations the fragment exposes: a render of the list, or
a user activation of the item at index `i`. -/
inductive Op where
  | render : Op
  | activate : Nat → Op

/-- The observable output of one runtime operation. -/
inductive OpOutput (α : Type) where
  | rendered : List (RenderedItem α) → OpOutput α
  | clicked : List (String × α) → OpOutput α

/-- One runtime operation over the module state (the record collection).
The source contains no statement that writes the collection, so every
operation returns it unchanged alongside its observable output; an
activation of an out-of-range index produces no invocation. -/
def runOp {α : Type} (cb : String → α) (c : List ExampleModel) :
    Op → OpOutput α × List ExampleModel
  | Op.render => (OpOutput.rendered (renderList c cb), c)
  | Op.activate i =>
      (OpOutput.clicked (((renderList c cb).get? i).elim [] RenderedItem.click), c)

/-- The module state after a sequence of runtime operations. -/
def runOps {α : Type} (cb : String → α) (c : List ExampleModel) :
    List Op → List ExampleModel
  | [] => c
  | op :: ops => runOps cb (runOp cb c op).2 ops

-- Helper lemmas about `renderFrom` / `renderList`.

theorem renderFrom_length {α : Type} (cb : String → α) (i : Nat)
    (exs : List ExampleModel) : (renderFrom cb i exs).length = exs.length := by
  induction exs generalizing i with
  | nil => rfl
  | cons x xs ih => simp [renderFrom, ih]

theorem renderList_length {α : Type} (exs : List ExampleModel)
    (cb : String → α) : (renderList exs cb).length = exs.length :=
  renderFrom_length cb 0 exs

theorem renderFrom_map_text {α : Type} (cb : String → α) (i : Nat)
    (exs : List ExampleModel) :
    (renderFrom cb i exs).map RenderedItem.text = exs.map ExampleModel.text := by
  induction exs generalizing i with
  | nil => rfl
  | cons x xs ih => simp [renderFrom, ih]

theorem renderFrom_get {α : Type} (cb : String → α) (j : Nat)
    (exs : List ExampleModel) (i : Nat) (h : i < (renderFrom cb j exs).length)
    (h' : i < exs.length) :
    (renderFrom cb j exs).get ⟨i, h⟩ =
      ⟨j + i, (exs.get ⟨i, h'⟩).text, (exs.get ⟨i, h'⟩).value, cb⟩ := by
  induction exs generalizing i j with
  | nil => exact absurd h' (by simp)
  | cons x xs ih =>
      cases i with
      | zero => simp [renderFrom]
      | succ k =>
          have hk : k < (renderFrom cb (j + 1) xs).length := by
            simpa [renderFrom] using h
          have hk' : k < xs.length := by simpa using h'
          simpa [renderFrom, Nat.add_assoc, Nat.add_comm 1 k] using ih (j + 1) k hk hk'

theorem renderList_get {α : Type} (exs : List ExampleModel) (cb : String → α)
    (i : Nat) (h : i < (renderList exs cb).length) (h' : i < exs.length) :
    (renderList exs cb).get ⟨i, h⟩ =
      ⟨i, (exs.get ⟨i, h'⟩).text, (exs.get ⟨i, h'⟩).value, cb⟩ := by
  simpa using renderFrom_get cb 0 exs i h h'

theorem renderList_get_onClick {α : Type} (exs : List ExampleModel)
    (cb : String → α) (i : Nat) (h : i < (renderList exs cb).length) :
    ((renderList exs cb).get ⟨i, h⟩).onClick = cb := by
  have h' : i < exs.length := by
    simpa [renderList_length] using h
  rw [renderList_get exs cb i h h']

theorem renderFrom_records {α : Type} (cb : String → α) (i : Nat)
    (exs : List ExampleModel) :
    (renderFrom cb i exs).map (fun it => ExampleModel.mk it.text it.value) = exs := by
  induction exs generalizing i with
  | nil => rfl
  | cons x xs ih => simp [renderFrom, ih]

theorem renderFrom_visible {α β : Type} (cb₁ : String → α) (cb₂ : String → β)
    (i : Nat) (exs : List ExampleModel) :
    (renderFrom cb₁ i exs).map (fun it => (it.key, it.text)) =
      (renderFrom cb₂ i exs).map (fun it => (it.key, it.text)) := by
  induction exs generalizing i with
  | nil => rfl
  | cons x xs ih => simp [renderFrom, ih]

theorem runOps_collection {α : Type} (cb : String → α) (c : List ExampleModel)
    (ops : List Op) : runOps cb c ops = c := by
  induction ops with
  | nil => rfl
  | cons op ops ih => cases op <;> simpa [runOps, runOp] using ih

theorem ExampleList_get {α : Type} (cb : String → α) (i : Nat)
    (h : i < (ExampleList cb).length) (h' : i < EXAMPLES.length) :
    (ExampleList cb).get ⟨i, h⟩ =
      ⟨i, (EXAMPLES.get ⟨i, h'⟩).text, (EXAMPLES.get ⟨i, h'⟩).value, cb⟩ :=
  renderList_get EXAMPLES cb i h h'

theorem ExampleList_length_eq {α : Type} (cb : String → α) :
    (ExampleList cb).length = EXAMPLES.length :=
  renderList_length EXAMPLES cb

theorem EXAMPLES_text_eq_value : ∀ x ∈ EXAMPLES, x.text = x.value := by
  intro x hx
  simp only [EXAMPLES, List.mem_cons, List.not_mem_nil, or_false] at hx
  rcases hx with rfl | rfl | rfl <;> rfl

def exampleAt (i : Nat) : ExampleModel := EXAMPLES.getD i ⟨"", ""⟩

theorem EXAMPLES_get_eq_exampleAt (i : Nat) (hi : i < EXAMPLES.length) :
    EXAMPLES.get ⟨i, hi⟩ = exampleAt i := by
  have hi3 : i < 3 := hi
  interval_cases i <;> rfl

theorem exampleAt_value_injective (i j : Nat) (hi : i < 3) (hj : j < 3)
    (hne : i ≠ j) : (exampleAt i).value ≠ (exampleAt j).value := by
  interval_cases i <;> interval_cases j <;>
    first
      | exact absurd rfl hne
      | decide

theorem EXAMPLES_value_injective (i j : Nat) (hi : i < EXAMPLES.length)
    (hj : j < EXAMPLES.length) (hne : i ≠ j) :
    (EXAMPLES.get ⟨i, hi⟩).value ≠ (EXAMPLES.get ⟨j, hj⟩).value := by
  rw [EXAMPLES_get_eq_exampleAt i hi, EXAMPLES_get_eq_exampleAt j hj]
  exact exampleAt_value_injective i j hi hj hne

theorem performActivations_renderList {α : Type} (exs : List ExampleModel)
    (cb : String → α) (acts : List (Fin (renderList exs cb).length)) :
    performActivations (renderList exs cb) acts
      = acts.map (fun i =>
          (((renderList exs cb).get i).value,
            cb (((renderList exs cb).get i).value))) := by
  induction acts with
  | nil => rfl
  | cons a as ih =>
      obtain ⟨av, ah⟩ := a
      have honc := renderList_get_onClick exs cb av ah
      rw [List.map_cons, ← ih]
      simp only [performActivations, RenderedItem.click, honc,
        List.singleton_append]

/-- C1: activating the i-th rendered item invokes the caller-supplied
callback exactly once (the click trace is a single invocation),
synchronously, passing the i-th record's `value` field, and never invokes
the callback with any other record's value. -/
theorem c1_click_invokes_with_value (α : Type) (cb : String → α) (i : Nat)
    (h : i < (ExampleList cb).length) (h' : i < EXAMPLES.length) :
    ((ExampleList cb).get ⟨i, h⟩).click
        = [((EXAMPLES.get ⟨i, h'⟩).value, cb (EXAMPLES.get ⟨i, h'⟩).value)] ∧
    ∀ (j : Nat) (hj : j < EXAMPLES.length), j ≠ i →
      (EXAMPLES.get ⟨j, hj⟩).value ∉ ((ExampleList cb).get ⟨i, h⟩).clickArgs := by
  rw [ExampleList_get cb i h h']
  constructor
  · rfl
  · intro j hj hne
    simp only [RenderedItem.clickArgs, RenderedItem.click, List.map_cons,
      List.map_nil, List.mem_singleton]
    exact EXAMPLES_value_injective j i hj h' hne

/-- Witness for C1 at item 0 with the identity callback: the click trace is
the single invocation with record 0's value, and record 1's value is not
among the arguments passed. -/
theorem c1_witness :
    ((ExampleList (fun s : String => s)).get ⟨0, by decide⟩).click
        = [((EXAMPLES.get ⟨0, by decide⟩).value,
            (fun s : String => s) (EXAMPLES.get ⟨0, by decide⟩).value)] ∧
    (EXAMPLES.get ⟨1, by decide⟩).value ∉
        ((ExampleList (fun s : String => s)).get ⟨0, by decide⟩).clickArgs :=
  ⟨(c1_click_invokes_with_value String (fun s => s) 0 (by decide) (by decide)).1,
    (c1_click_invokes_with_value String (fun s => s) 0 (by decide) (by decide)).2
      1 (by decide) (by decide)⟩

/-- C2: for every collection, rendering produces exactly one list item per
record, in collection order, and each item's visible label is the
corresponding record's `text`. -/
theorem c2_one_item_per_record (α : Type) (exs : List ExampleModel)
    (cb : String → α) :
    (renderList exs cb).length = exs.length ∧
    (renderList exs cb).map RenderedItem.text = exs.map ExampleModel.text :=
  ⟨renderList_length exs cb, renderFrom_map_text cb 0 exs⟩

/-- C3: rendering is deterministic and idempotent: with the same collection
and the same callback any two renders produce identical item lists, and the
visible part of the output (keys and labels, in order) does not depend on
the callback at all, so the output is purely a function of the collection
and the callback. -/
theorem c3_render_deterministic (α β : Type) (exs : List ExampleModel)
    (cb cb' : String → α) (h : cb = cb') :
    renderList exs cb = renderList exs cb' ∧
    ∀ db : String → β,
      (renderList exs cb).map (fun it => (it.key, it.text)) =
        (renderList exs db).map (fun it => (it.key, it.text)) := by
  subst h
  exact ⟨rfl, fun db => renderFrom_visible cb db 0 exs⟩

/-- Witness for C3: two renders of `EXAMPLES` with the identity callback
are identical, and the visible output matches that of a render with a
constant callback of a different result type. -/
theorem c3_witness :
    renderList EXAMPLES (fun s : String => s)
        = renderList EXAMPLES (fun s : String => s) ∧
    ∀ db : String → Nat,
      (renderList EXAMPLES (fun s : String => s)).map (fun it => (it.key, it.text)) =
        (renderList EXAMPLES db).map (fun it => (it.key, it.text)) :=
  c3_render_deterministic String Nat EXAMPLES (fun s => s) (fun s => s) rfl

/-- C4: rendering the empty collection produces a list with zero items, and
no sequence of user activations on it ever invokes the callback; nothing
about this is an error. -/
theorem c4_empty_collection (α : Type) (cb : String → α) :
    renderList ([] : List ExampleModel) cb = [] ∧
    ∀ acts : List (Fin (renderList ([] : List ExampleModel) cb).length),
      performActivations (renderList ([] : List ExampleModel) cb) acts = [] := by
  refine ⟨rfl, ?_⟩
  intro acts
  cases acts with
  | nil => rfl
  | cons a as =>
      have h0 : (renderList ([] : List ExampleModel) cb).length = 0 := rfl
      exact absurd a.isLt (by omega)

/-- C5: the collection is a module-level constant: no runtime operation
(render or activation) changes it, and after any sequence of operations a
render still lays out exactly the build-time sequence of records, in the
build-time order. -/
theorem c5_collection_immutable (α : Type) (cb : String → α) (ops : List Op) :
    runOps cb EXAMPLES ops = EXAMPLES ∧
    (renderList (runOps cb EXAMPLES ops) cb).map
        (fun it => ExampleModel.mk it.text it.value) = EXAMPLES := by
  refine ⟨runOps_collection cb EXAMPLES ops, ?_⟩
  rw [runOps_collection]
  exact renderFrom_records cb 0 EXAMPLES

/-- C6: the hardcoded collection has exactly three records, so rendering
the component produces exactly three list items. -/
theorem c6_three_items (α : Type) (cb : String → α) :
    EXAMPLES.length = 3 ∧ (ExampleList cb).length = 3 :=
  ⟨rfl, rfl⟩

/-- C7: the component neither catches nor transforms a failure of the
supplied callback: the click trace records exactly the callback's own
result, and when the callback returns an error, that same error is what the
click propagates. -/
theorem c7_error_propagation (ε β : Type) (cb : String → Except ε β) (i : Nat)
    (h : i < (ExampleList cb).length) (h' : i < EXAMPLES.length) :
    ((ExampleList cb).get ⟨i, h⟩).click
        = [((EXAMPLES.get ⟨i, h'⟩).value, cb ((EXAMPLES.get ⟨i, h'⟩).value))] ∧
    ∀ err : ε, cb ((EXAMPLES.get ⟨i, h'⟩).value) = Except.error err →
      ((ExampleList cb).get ⟨i, h⟩).click.map Prod.snd = [Except.error err] := by
  rw [ExampleList_get cb i h h']
  refine ⟨rfl, ?_⟩
  intro err herr
  simp only [RenderedItem.click, List.map_cons, List.map_nil]
  rw [herr]

/-- Witness for C7 at item 0 with a callback that always throws: the
propagated result is exactly that error. -/
theorem c7_witness :
    ((ExampleList
          (fun _ : String => (Except.error "exampleFailure" : Except String Unit))).get
        ⟨0, by decide⟩).click.map Prod.snd
      = [(Except.error "exampleFailure" : Except String Unit)] :=
  (c7_error_propagation String Unit
      (fun _ : String => (Except.error "exampleFailure" : Except String Unit))
      0 (by decide) (by decide)).2 "exampleFailure" rfl

/-- C8: for every sequence of discrete user activations, the callback is
invoked exactly once per activation (hence at most once), and the
invocation trace lists the activations in the order the user performs
them. -/
theorem c8_activation_order (α : Type) (cb : String → α)
    (acts : List (Fin (ExampleList cb).length)) :
    performActivations (ExampleList cb) acts
        = acts.map (fun i =>
            (((ExampleList cb).get i).value, cb (((ExampleList cb).get i).value))) ∧
    (performActivations (ExampleList cb) acts).length = acts.length := by
  have hmain := performActivations_renderList EXAMPLES cb acts
  refine ⟨hmain, ?_⟩
  have h2 := congrArg List.length hmain
  simpa using h2

/-- C9: every record of the hardcoded collection has `text` equal to
`value`, so the string a click passes to the callback is
character-for-character the item's displayed label. -/
theorem c9_text_equals_value :
    (∀ x ∈ EXAMPLES, x.text = x.value) ∧
    ∀ (α : Type) (cb : String → α) (i : Nat) (h : i < (ExampleList cb).length)
      (h' : i < EXAMPLES.length),
      ((ExampleList cb).get ⟨i, h⟩).clickArgs = [((ExampleList cb).get ⟨i, h⟩).text] := by
  refine ⟨EXAMPLES_text_eq_value, ?_⟩
  intro α cb i h h'
  rw [ExampleList_get cb i h h']
  simp only [RenderedItem.clickArgs, RenderedItem.click, List.map_cons, List.map_nil]
  have hmem : EXAMPLES.get ⟨i, h'⟩ ∈ EXAMPLES := EXAMPLES.get_mem _ _
  rw [EXAMPLES_text_eq_value _ hmem]

/-- Witness for C9: record 0 has equal `text` and `value`, and clicking
item 0 passes exactly its displayed label. -/
theorem c9_witness :
    (EXAMPLES.get ⟨0, by decide⟩).text = (EXAMPLES.get ⟨0, by decide⟩).value ∧
    ((ExampleList (fun s : String => s)).get ⟨0, by decide⟩).clickArgs
        = [((ExampleList (fun s : String => s)).get ⟨0, by decide⟩).text] :=
  ⟨c9_text_equals_value.1 (EXAMPLES.get ⟨0, by decide⟩) (EXAMPLES.get_mem _ _),
    c9_text_equals_value.2 String (fun s => s) 0 (by decide) (by decide)⟩

/-- C10: every rendered item receives the caller-supplied callback itself
as its `onClick` capability: no wrapping, filtering, or per-item
substitution, so all items share one identical callback. -/
theorem c10_callback_forwarded (α : Type) (cb : String → α) (i : Nat)
    (h : i < (ExampleList cb).length) :
    ((ExampleList cb).get ⟨i, h⟩).onClick = cb :=
  renderList_get_onClick EXAMPLES cb i h

/-- Witness for C10 at item 2 with the identity callback. -/
theorem c10_witness :
    ((ExampleList (fun s : String => s)).get ⟨2, by decide⟩).onClick
      = (fun s : String => s) :=
  c10_callback_forwarded String (fun s => s) 2 (by decide)
